import Mathlib

/-!
Verification of the UpShot screenshot-sharing pipeline (src/upshot.py,
src/Preferences.py) against its natural-language specification.

The embedding below is a shallow model of the Python source:

* `handle_screenshot_candidate`, `on_created`, `on_moved` model the
  `ScreenshotHandler` methods of src/upshot.py (lines 188-251).  External
  effects (image resampling, file reads, the two Phabricator remote calls,
  the clipboard write, the Growl call) are recorded in an
  explicit `Effect` trace, in source order.  An exception escaping the
  handler (the source has no try/except in this code) is modelled by the
  `err` field of the result.
* `startListening` / `stopListening` model `Upshot.startListening_` and
  `Upshot.stopListening_` (lines 151-175): the dispatcher state holds the
  tracked `self.observer` reference and the set of watchdog observers that
  have been started and not yet stopped/joined.
* Collaborators whose source is outside src/ (`lib.utils.is_screenshot`,
  `utils.resampleRetinaImage`, `base64.b64encode`, the Phabricator client,
  `os.path.getctime`, `time.time`) enter the model as parameters of `Env`,
  so every theorem quantifies over their behaviour.
-/

/-- TIME_THRESHOLD = 15 (src/upshot.py line 27): "How many seconds after
creation do we handle a file?" -/
def TIME_THRESHOLD : Int := 15

/-- Errors an external remote call can raise (spec section 4.3 taxonomy). -/
inductive UploadError
  | network
  | auth
  | malformedResponse
deriving DecidableEq

/-- Result of `PHAB.file.upload`: the source reads `result.response` (the
phid) from it (src/upshot.py line 226). -/
structure UploadResp where
  response : String
deriving DecidableEq

/-- Result of `PHAB.file.info`: the source reads `result['uri']` and
`result['objectName']` (src/upshot.py lines 228-229). -/
structure InfoResp where
  uri : String
  objectName : String
deriving DecidableEq

/-- Observable external effects of the handler, in source order. -/
inductive Effect
  | resampleInPlace (path : String)
  | readFile (path : String)
  | remoteUpload (dataB64 : String)
  | remoteInfo (phid : String)
  | clipboardWrite (text : String)
  | notifyGrowl (title : String) (body : String) (context : String)
  | revealInFileViewer (path : String)
deriving DecidableEq

/-- Environment: the collaborator inputs the handler consults.  `ctime` models
`os.path.getctime`, `now` models `time.time()`, `is_screenshot` models
`lib.utils.is_screenshot` (source not under src/), `retinascale` the
`get_pref('retinascale')` setting, `resample` the image transform of
`utils.resampleRetinaImage`, `b64encode` the base64 encoder, and
`uploadCall` / `infoCall` the two Phabricator remote calls. -/
structure Env where
  ctime : String → Int
  now : Int
  is_screenshot : String → Bool
  retinascale : Bool
  resample : List Nat → List Nat
  b64encode : List Nat → String
  uploadCall : String → Except UploadError UploadResp
  infoCall : String → Except UploadError InfoResp

/-- `os.path.basename`: the part of the path after the last slash. -/
def basename (p : String) : String :=
  String.mk ((p.data.reverse.takeWhile (fun c => c ≠ '/')).reverse)

/-- `os.path.basename(f).startswith('.')` (src/upshot.py line 193). -/
def startswith_dot (p : String) : Bool :=
  match p.data with
  | [] => false
  | c :: _ => c = '.'

/-- Result of running the handler: the effect trace, the exception escaping
the handler if one did (`none` means the handler returned normally), and the
file system after the handler ran (a map from path to bytes). -/
structure HandleOut where
  effects : List Effect
  err : Option UploadError
  fs : String → List Nat

/-- The notification body built at src/upshot.py lines 238-242. -/
def notifyBody (url phid object_name : String) : String :=
  "Your URL is: " ++ url ++ "\nPHID is: " ++ phid ++ "\nFILE is: " ++
    object_name ++ "\nClick here to view file."

/-- `ScreenshotHandler.handle_screenshot_candidate` (src/upshot.py lines
205-243), translated line by line:

* line 209: `if os.path.getctime(f) - time.time() > TIME_THRESHOLD: return`
  — note the source computes creation time MINUS current time;
* line 213: `if not utils.is_screenshot(f): return`;
* line 216: `utils.get_pref('retinascale') and utils.resampleRetinaImage(f, f)`
  — if the setting is true, the file is resampled onto itself;
* lines 218-229: open/read the file, base64-encode, `PHAB.file.upload`,
  then `PHAB.file.info` on the returned phid; a failing remote call raises
  and nothing below it runs (there is no try/except);
* line 232: `utils.pbcopy(url)`;
* lines 235-243: one Growl call with `notify_callback`
  registered and `context=f`. -/
def handle_screenshot_candidate (env : Env) (fs : String → List Nat)
    (f : String) : HandleOut :=
  if env.ctime f - env.now > TIME_THRESHOLD then
    ⟨[], none, fs⟩
  else if !env.is_screenshot f then
    ⟨[], none, fs⟩
  else
    let fs1 : String → List Nat :=
      if env.retinascale then
        (fun p => if p = f then env.resample (fs f) else fs p)
      else fs
    let pre : List Effect :=
      if env.retinascale then [Effect.resampleInPlace f] else []
    let encoded := env.b64encode (fs1 f)
    match env.uploadCall encoded with
    | Except.error e =>
        ⟨pre ++ [Effect.readFile f, Effect.remoteUpload encoded], some e, fs1⟩
    | Except.ok resp =>
        match env.infoCall resp.response with
        | Except.error e =>
            ⟨pre ++ [Effect.readFile f, Effect.remoteUpload encoded,
                     Effect.remoteInfo resp.response], some e, fs1⟩
        | Except.ok info =>
            ⟨pre ++ [Effect.readFile f, Effect.remoteUpload encoded,
                     Effect.remoteInfo resp.response,
                     Effect.clipboardWrite info.uri,
                     Effect.notifyGrowl "Screenshot shared!"
                       (notifyBody info.uri resp.response info.objectName) f],
             none, fs1⟩

/-- `ScreenshotHandler.notify_callback` (src/upshot.py lines 245-251): when
the notification is clicked, reveal the shared file in Finder
(`NSWorkspace.activateFileViewerSelectingURLs_`). -/
def notify_callback (filepath : String) : Effect :=
  Effect.revealInFileViewer filepath

/-- Filesystem events as delivered by the watchdog observer.  The source's
`isinstance(event, FileCreatedEvent)` / `isinstance(event, FileMovedEvent)`
checks distinguish file events from directory events. -/
inductive FSEvent
  | fileCreated (src_path : String)
  | dirCreated (src_path : String)
  | fileMoved (src_path : String) (dest_path : String)
  | dirMoved (src_path : String) (dest_path : String)
deriving DecidableEq

/-- `ScreenshotHandler.on_created` (src/upshot.py lines 190-194): handles
`FileCreatedEvent`s whose basename does not start with a dot. -/
def on_created (env : Env) (fs : String → List Nat) (event : FSEvent) :
    HandleOut :=
  match event with
  | FSEvent.fileCreated f =>
      if !startswith_dot (basename f) then
        handle_screenshot_candidate env fs f
      else ⟨[], none, fs⟩
  | _ => ⟨[], none, fs⟩

/-- `ScreenshotHandler.on_moved` (src/upshot.py lines 196-203): handles
`FileMovedEvent`s, forwarding `event.dest_path` with no further check. -/
def on_moved (env : Env) (fs : String → List Nat) (event : FSEvent) :
    HandleOut :=
  match event with
  | FSEvent.fileMoved _ dest => handle_screenshot_candidate env fs dest
  | _ => ⟨[], none, fs⟩

/-- Watchdog event dispatch: created events go to `on_created`, move events
to `on_moved`. -/
def dispatch (env : Env) (fs : String → List Nat) (event : FSEvent) :
    HandleOut :=
  match event with
  | FSEvent.fileCreated _ => on_created env fs event
  | FSEvent.dirCreated _ => on_created env fs event
  | FSEvent.fileMoved _ _ => on_moved env fs event
  | FSEvent.dirMoved _ _ => on_moved env fs event

/-- Sequential processing of a list of events by one handler, threading the
file system through; the concatenated effect trace. -/
def processEvents (env : Env) (fs : String → List Nat) :
    List FSEvent → List Effect
  | [] => []
  | e :: rest =>
      let out := dispatch env fs e
      out.effects ++ processEvents env out.fs rest

/-- Is this effect a remote call (either of the two Phabricator calls)? -/
def isRemoteCall : Effect → Bool
  | Effect.remoteUpload _ => true
  | Effect.remoteInfo _ => true
  | _ => false

/-- Number of remote calls in a trace. -/
def remoteCallCount (es : List Effect) : Nat :=
  (es.filter isRemoteCall).length

/-- Is this effect an upload attempt (`PHAB.file.upload`)? -/
def isUploadAttempt : Effect → Bool
  | Effect.remoteUpload _ => true
  | _ => false

/-- Number of upload attempts in a trace. -/
def uploadAttempts (es : List Effect) : Nat :=
  (es.filter isUploadAttempt).length

/-- Is this effect an info call (`PHAB.file.info`)? -/
def isInfoCall : Effect → Bool
  | Effect.remoteInfo _ => true
  | _ => false

/-- Is this effect a clipboard write (`utils.pbcopy`)? -/
def isClipboardWrite : Effect → Bool
  | Effect.clipboardWrite _ => true
  | _ => false

/-- Is this effect a user-facing Growl call? -/
def isNotify : Effect → Bool
  | Effect.notifyGrowl _ _ _ => true
  | _ => false

/-- Dispatcher state of the `Upshot` delegate: `observer` is the tracked
`self.observer` reference (an observer id or `None`); `running` lists the
ids of watchdog observers that were started and not yet stopped and joined;
`nextId` supplies fresh ids for newly allocated observers. -/
structure UpshotState where
  observer : Option Nat
  running : List Nat
  nextId : Nat
deriving DecidableEq

/-- `Upshot.startListening_` (src/upshot.py lines 151-162): unconditionally
allocates a fresh `Observer()`, schedules and starts it, and overwrites
`self.observer` with it.  There is no check of the previous value. -/
def startListening (s : UpshotState) : UpshotState :=
  ⟨some s.nextId, s.running ++ [s.nextId], s.nextId + 1⟩

/-- `Upshot.stopListening_` (src/upshot.py lines 164-175): if
`self.observer is not None`, stop it, join it (the observer thread has
fully terminated when `join` returns) and set `self.observer = None`;
otherwise do nothing. -/
def stopListening (s : UpshotState) : UpshotState :=
  match s.observer with
  | some oid =>
      ⟨none, s.running.filter (fun x => x ≠ oid), s.nextId⟩
  | none => s

/-- Can any filesystem event still reach a handler (and hence the uploader)?
True iff at least one observer thread is still running. -/
def canDeliver (s : UpshotState) : Bool :=
  !s.running.isEmpty

/-- Dispatcher state at application launch: no observer yet. -/
def initialState : UpshotState := ⟨none, [], 0⟩

/-- Modelled from the spec: `lib.utils.is_screenshot` is imported by
src/upshot.py (line 213) but its source is not under src/.  Spec section 4.1
describes it as the screenshot-signature policy hook, "e.g., image format
and file-extension check", separate from the hidden-name and freshness
checks.  Modelled as a PNG file-extension check. -/
def is_screenshot_spec (f : String) : Bool :=
  List.isSuffixOf ".png".data f.data

/-- A tiny concrete file system for witnesses: every path holds the same
four bytes (a PNG magic-number fragment). -/
def sampleFs : String → List Nat := fun _ => [137, 80, 78, 71]

/-- A concrete environment for witnesses: every file was created at the
current instant, remote calls succeed. -/
def sampleEnv : Env :=
  { ctime := fun _ => 100
    now := 100
    is_screenshot := is_screenshot_spec
    retinascale := false
    resample := fun bs => bs
    b64encode := fun _ => "iVBORw"
    uploadCall := fun _ => Except.ok ⟨"PHID-FILE-1"⟩
    infoCall := fun _ => Except.ok ⟨"https://phab.example/F1", "F1"⟩ }

/-- A concrete environment whose upload call fails with a network error. -/
def failEnv : Env :=
  { sampleEnv with uploadCall := fun _ => Except.error UploadError.network }

/-- Characterization of a successful handler run: when the path is fresh
enough for the (inverted) age guard and passes the screenshot check, and
both remote calls succeed, the handler performs the optional in-place
resample, the file read, the two remote calls, the clipboard write and one
Growl call, in that order, and returns normally. -/
theorem handle_success_run (env : Env) (fs : String → List Nat) (f : String)
    (resp : UploadResp) (info : InfoResp)
    (hfresh : ¬(env.ctime f - env.now > TIME_THRESHOLD))
    (hshot : env.is_screenshot f = true)
    (hu : ∀ s, env.uploadCall s = Except.ok resp)
    (hi : ∀ p, env.infoCall p = Except.ok info) :
    handle_screenshot_candidate env fs f =
      ⟨(if env.retinascale then [Effect.resampleInPlace f] else []) ++
        [Effect.readFile f,
         Effect.remoteUpload (env.b64encode
           (if env.retinascale then env.resample (fs f) else fs f)),
         Effect.remoteInfo resp.response,
         Effect.clipboardWrite info.uri,
         Effect.notifyGrowl "Screenshot shared!"
           (notifyBody info.uri resp.response info.objectName) f],
       none,
       if env.retinascale then
         (fun p => if p = f then env.resample (fs f) else fs p)
       else fs⟩ := by
  unfold handle_screenshot_candidate
  rw [if_neg hfresh, if_neg (by simp [hshot])]
  cases hr : env.retinascale <;> simp [hr, hu, hi]

/-- Characterization of a handler run whose upload call fails: the resample
and file read have happened, the failing upload call is the last recorded
effect, the exception escapes the handler, and neither the clipboard write
nor the Growl call is reached. -/
theorem handle_upload_error_run (env : Env) (fs : String → List Nat)
    (f : String) (e : UploadError)
    (hfresh : ¬(env.ctime f - env.now > TIME_THRESHOLD))
    (hshot : env.is_screenshot f = true)
    (hu : ∀ s, env.uploadCall s = Except.error e) :
    handle_screenshot_candidate env fs f =
      ⟨(if env.retinascale then [Effect.resampleInPlace f] else []) ++
        [Effect.readFile f,
         Effect.remoteUpload (env.b64encode
           (if env.retinascale then env.resample (fs f) else fs f))],
       some e,
       if env.retinascale then
         (fun p => if p = f then env.resample (fs f) else fs p)
       else fs⟩ := by
  unfold handle_screenshot_candidate
  rw [if_neg hfresh, if_neg (by simp [hshot])]
  cases hr : env.retinascale <;> simp [hr, hu]

/-- Any single handler run makes at most one upload attempt. -/
theorem uploadAttempts_handle_le_one (env : Env) (fs : String → List Nat)
    (f : String) :
    uploadAttempts (handle_screenshot_candidate env fs f).effects ≤ 1 := by
  by_cases h1 : env.ctime f - env.now > TIME_THRESHOLD
  · simp [handle_screenshot_candidate, h1, uploadAttempts]
  by_cases h2 : env.is_screenshot f = true
  · cases hr : env.retinascale
    · cases hc : env.uploadCall (env.b64encode (fs f)) with
      | error e =>
          simp [handle_screenshot_candidate, h1, h2, hr, hc, uploadAttempts,
            isUploadAttempt]
      | ok resp =>
          cases hic : env.infoCall resp.response <;>
            simp [handle_screenshot_candidate, h1, h2, hr, hc, hic,
              uploadAttempts, isUploadAttempt]
    · cases hc : env.uploadCall (env.b64encode (env.resample (fs f))) with
      | error e =>
          simp [handle_screenshot_candidate, h1, h2, hr, hc, uploadAttempts,
            isUploadAttempt]
      | ok resp =>
          cases hic : env.infoCall resp.response <;>
            simp [handle_screenshot_candidate, h1, h2, hr, hc, hic,
              uploadAttempts, isUploadAttempt]
  · have h2f : env.is_screenshot f = false := by
      cases hb : env.is_screenshot f
      · rfl
      · exact absurd hb h2
    simp [handle_screenshot_candidate, h1, h2f, uploadAttempts]

/-- A concrete environment in which the candidate file was created 1000
seconds before the current time — far older than the 15-second threshold. -/
def staleEnv : Env :=
  { sampleEnv with ctime := fun _ => 0, now := 1000 }

/-- C1: the claim says a path whose creation time is older than now − 15s is
rejected and never uploaded.  The source (src/upshot.py line 209) computes
`os.path.getctime(f) - time.time() > TIME_THRESHOLD`, i.e. creation time
minus current time, which is negative for every old file, so the guard never
fires for them: a screenshot-shaped file created 1000 seconds ago is
accepted and uploaded.  This contradicts the source's own comment at lines
207-208 ("Do not act on files that are too old"), so the code, not the
claim, is wrong. -/
theorem c1_stale_file_still_uploaded :
    uploadAttempts (handle_screenshot_candidate staleEnv sampleFs
      "shot.png").effects = 1 ∧
    (handle_screenshot_candidate staleEnv sampleFs "shot.png").err = none := by
  exact ⟨rfl, rfl⟩

/-- C2 counterexample: starting twice from the launch state leaves two
observers running (two independent watch sessions) and raises no error,
refuting both the at-most-one-session invariant and the
`AlreadyRunningError` behaviour the claim asserts. -/
theorem c2_counterexample :
    (startListening (startListening initialState)).running.length = 2 ∧
    (startListening (startListening initialState)).observer = some 1 := by
  decide

/-- C2 amended: calling start while an observer is already tracked allocates
and starts a second observer without stopping the first and without raising
any error; the tracked reference is overwritten, so the first observer keeps
running and even a subsequent stop cannot reach it. -/
theorem c2_second_start_leaks (s : UpshotState) (k : Nat)
    (_hobs : s.observer = some k) (hmem : k ∈ s.running)
    (hfresh : k < s.nextId) :
    (startListening s).running.length = s.running.length + 1 ∧
    (startListening s).observer = some s.nextId ∧
    k ∈ (stopListening (startListening s)).running := by
  refine ⟨by simp [startListening], rfl, ?_⟩
  have hne : k ≠ s.nextId := Nat.ne_of_lt hfresh
  simp [startListening, stopListening, List.mem_filter, hne]
  exact hmem

/-- Witness for `c2_second_start_leaks` at the state reached by one start
from launch (observer 0 tracked and running). -/
theorem c2_second_start_leaks_w :
    (startListening (UpshotState.mk (some 0) [0] 1)).running.length =
      (UpshotState.mk (some 0) [0] 1).running.length + 1 ∧
    (startListening (UpshotState.mk (some 0) [0] 1)).observer =
      some (UpshotState.mk (some 0) [0] 1).nextId ∧
    0 ∈ (stopListening (startListening (UpshotState.mk (some 0) [0] 1))).running :=
  c2_second_start_leaks (UpshotState.mk (some 0) [0] 1) 0 rfl (by decide)
    (by decide)

/-- C7 counterexample: after start, start, stop, the stop has returned but
observer 0 — leaked by the double start — is still running, so filesystem
events still reach its handler and hence the uploader. -/
theorem c7_counterexample :
    (stopListening (startListening (startListening initialState))).running
      = [0] ∧
    canDeliver (stopListening (startListening (startListening
      initialState))) = true := by
  decide

/-- C7 amended: provided the tracked observer is the only one running (true
in every history without a double start), stop stops and joins it before
returning, after which no observer is running and no event can reach the
uploader. -/
theorem c7_stop_joins_sole_session (s : UpshotState)
    (h : ∀ x ∈ s.running, s.observer = some x) :
    (stopListening s).running = [] ∧
    canDeliver (stopListening s) = false := by
  cases hobs : s.observer with
  | none =>
      have hnil : s.running = [] := by
        cases hr : s.running with
        | nil => rfl
        | cons a t =>
            have ha := h a (by rw [hr]; exact List.mem_cons_self a t)
            rw [hobs] at ha
            exact absurd ha (by simp)
      refine ⟨?_, ?_⟩
      · simp [stopListening, hobs, hnil]
      · simp [canDeliver, stopListening, hobs, hnil]
  | some oid =>
      have key : ∀ a ∈ s.running, a = oid := by
        intro a ha
        have hx := h a ha
        rw [hobs] at hx
        injection hx with hx
        exact hx.symm
      refine ⟨?_, ?_⟩
      · simp [stopListening, hobs]
        exact key
      · simp [canDeliver, stopListening, hobs]
        exact key

/-- Witness for `c7_stop_joins_sole_session` at a state with one tracked,
running observer. -/
theorem c7_stop_joins_sole_session_w :
    (stopListening (UpshotState.mk (some 5) [5] 6)).running = [] ∧
    canDeliver (stopListening (UpshotState.mk (some 5) [5] 6)) = false :=
  c7_stop_joins_sole_session (UpshotState.mk (some 5) [5] 6) (by decide)

/-- C8: stop while no observer is tracked takes the `self.observer is None`
branch of `stopListening_`, which does nothing: the state is unchanged, no
error is raised, and a second stop is likewise a no-op — stop is idempotent
from the idle state. -/
theorem c8_stop_is_noop_when_idle (s : UpshotState) (h : s.observer = none) :
    stopListening s = s ∧
    stopListening (stopListening s) = stopListening s := by
  have h1 : stopListening s = s := by
    simp [stopListening, h]
  exact ⟨h1, by rw [h1, h1]⟩

/-- Witness for `c8_stop_is_noop_when_idle` at the launch state. -/
theorem c8_stop_is_noop_when_idle_w :
    stopListening initialState = initialState ∧
    stopListening (stopListening initialState) = stopListening initialState :=
  c8_stop_is_noop_when_idle initialState rfl

/-- C3 counterexample: `.tmp_shot.png` is hidden (its basename starts with
a dot) and fresh, yet when it arrives as the destination of a file-moved
event, `on_moved` forwards it with no hidden-name check and one upload
attempt is made. -/
theorem c3_counterexample :
    startswith_dot (basename ".tmp_shot.png") = true ∧
    uploadAttempts (dispatch sampleEnv sampleFs
      (FSEvent.fileMoved "shot tmp" ".tmp_shot.png")).effects = 1 := by
  exact ⟨rfl, rfl⟩

/-- C3 amended: the hidden-name filter exists only on the created-event
path: for every path whose basename starts with a dot arriving via a
file-created event, the handler does nothing (no upload attempt); paths
arriving via file-moved events receive no hidden-name filtering. -/
theorem c3_hidden_created_rejected (env : Env) (fs : String → List Nat)
    (f : String) (h : startswith_dot (basename f) = true) :
    (on_created env fs (FSEvent.fileCreated f)).effects = [] ∧
    uploadAttempts (on_created env fs (FSEvent.fileCreated f)).effects = 0 := by
  have hred : on_created env fs (FSEvent.fileCreated f) =
      ⟨[], none, fs⟩ := by
    simp [on_created, h]
  rw [hred]
  exact ⟨rfl, rfl⟩

/-- Witness for `c3_hidden_created_rejected` on a hidden temp file. -/
theorem c3_hidden_created_rejected_w :
    (on_created sampleEnv sampleFs
      (FSEvent.fileCreated ".tmp_shot.png")).effects = [] ∧
    uploadAttempts (on_created sampleEnv sampleFs
      (FSEvent.fileCreated ".tmp_shot.png")).effects = 0 :=
  c3_hidden_created_rejected sampleEnv sampleFs ".tmp_shot.png" rfl

/-- C4 counterexample: with a fresh screenshot-shaped file and an upload
call that raises a network error, the error escapes
`handle_screenshot_candidate` — the source has no try/except, so the
failure is NOT caught at the dispatcher boundary as the claim states. -/
theorem c4_counterexample :
    (handle_screenshot_candidate failEnv sampleFs "shot.png").err =
      some UploadError.network := by
  rfl

/-- C4 amended: on upload failure no clipboard write occurs and no
notification fires, but the failure is not caught in this code: the
exception propagates out of the handler into the watchdog dispatch context,
and whether the watch session survives is decided by the external watchdog
library, not by this repository. -/
theorem c4_upload_failure_no_side_effects (env : Env)
    (fs : String → List Nat) (f : String) (e : UploadError)
    (hfresh : ¬(env.ctime f - env.now > TIME_THRESHOLD))
    (hshot : env.is_screenshot f = true)
    (hu : ∀ s, env.uploadCall s = Except.error e) :
    (handle_screenshot_candidate env fs f).err = some e ∧
    (handle_screenshot_candidate env fs f).effects.filter isClipboardWrite
      = [] ∧
    (handle_screenshot_candidate env fs f).effects.filter isNotify = [] := by
  rw [handle_upload_error_run env fs f e hfresh hshot hu]
  cases hr : env.retinascale <;>
    simp [hr, isClipboardWrite, isNotify]

/-- Witness for `c4_upload_failure_no_side_effects` with a concrete failing
environment. -/
theorem c4_upload_failure_no_side_effects_w :
    (handle_screenshot_candidate failEnv sampleFs "screen.png").err =
      some UploadError.network ∧
    (handle_screenshot_candidate failEnv sampleFs
      "screen.png").effects.filter isClipboardWrite = [] ∧
    (handle_screenshot_candidate failEnv sampleFs
      "screen.png").effects.filter isNotify = [] :=
  c4_upload_failure_no_side_effects failEnv sampleFs "screen.png"
    UploadError.network (by decide) rfl (fun _ => rfl)

/-- C5 counterexample: a successful handler run performs two remote calls
(`PHAB.file.upload` at src/upshot.py line 225 and `PHAB.file.info` at line
227), not the single remote call the claim asserts. -/
theorem c5_counterexample :
    remoteCallCount (handle_screenshot_candidate sampleEnv sampleFs
      "shot.png").effects = 2 := by
  rfl

/-- C5 amended: each successful invocation of the upload step performs
exactly two synchronous remote calls — one upload call carrying the encoded
bytes and returning a file id, then one info call on that id returning the
URL and object name — each made exactly once, with no retry logic. -/
theorem c5_two_remote_calls (env : Env) (fs : String → List Nat)
    (f : String) (resp : UploadResp) (info : InfoResp)
    (hfresh : ¬(env.ctime f - env.now > TIME_THRESHOLD))
    (hshot : env.is_screenshot f = true)
    (hu : ∀ s, env.uploadCall s = Except.ok resp)
    (hi : ∀ p, env.infoCall p = Except.ok info) :
    remoteCallCount (handle_screenshot_candidate env fs f).effects = 2 ∧
    uploadAttempts (handle_screenshot_candidate env fs f).effects = 1 ∧
    ((handle_screenshot_candidate env fs f).effects.filter
      isInfoCall).length = 1 := by
  rw [handle_success_run env fs f resp info hfresh hshot hu hi]
  cases hr : env.retinascale <;>
    simp [hr, remoteCallCount, uploadAttempts, isRemoteCall,
      isUploadAttempt, isInfoCall]

/-- Witness for `c5_two_remote_calls` in the concrete sample environment. -/
theorem c5_two_remote_calls_w :
    remoteCallCount (handle_screenshot_candidate sampleEnv sampleFs
      "pic.png").effects = 2 ∧
    uploadAttempts (handle_screenshot_candidate sampleEnv sampleFs
      "pic.png").effects = 1 ∧
    ((handle_screenshot_candidate sampleEnv sampleFs
      "pic.png").effects.filter isInfoCall).length = 1 :=
  c5_two_remote_calls sampleEnv sampleFs "pic.png" ⟨"PHID-FILE-1"⟩
    ⟨"https://phab.example/F1", "F1"⟩ (by decide) rfl (fun _ => rfl)
    (fun _ => rfl)

/-- C6: for an accepted candidate whose upload succeeds, the handler
returns normally having made exactly one upload attempt, exactly one
clipboard write carrying the result URL, and exactly one notification whose
body carries the URL, the phid and the object name and whose context is the
file path — the clipboard write coming immediately before the notification
at the end of the run — and the registered click callback reveals the file
in the native file browser. -/
theorem c6_success_pipeline (env : Env) (fs : String → List Nat)
    (f : String) (resp : UploadResp) (info : InfoResp)
    (hfresh : ¬(env.ctime f - env.now > TIME_THRESHOLD))
    (hshot : env.is_screenshot f = true)
    (hu : ∀ s, env.uploadCall s = Except.ok resp)
    (hi : ∀ p, env.infoCall p = Except.ok info) :
    (handle_screenshot_candidate env fs f).err = none ∧
    uploadAttempts (handle_screenshot_candidate env fs f).effects = 1 ∧
    (handle_screenshot_candidate env fs f).effects.filter isClipboardWrite
      = [Effect.clipboardWrite info.uri] ∧
    (handle_screenshot_candidate env fs f).effects.filter isNotify
      = [Effect.notifyGrowl "Screenshot shared!"
          (notifyBody info.uri resp.response info.objectName) f] ∧
    (∃ pre, (handle_screenshot_candidate env fs f).effects =
      pre ++ [Effect.clipboardWrite info.uri,
              Effect.notifyGrowl "Screenshot shared!"
                (notifyBody info.uri resp.response info.objectName) f]) ∧
    notify_callback f = Effect.revealInFileViewer f := by
  rw [handle_success_run env fs f resp info hfresh hshot hu hi]
  refine ⟨rfl, ?_, ?_, ?_, ?_, rfl⟩
  · cases hr : env.retinascale <;>
      simp [hr, uploadAttempts, isUploadAttempt]
  · cases hr : env.retinascale <;>
      simp [hr, isClipboardWrite]
  · cases hr : env.retinascale <;>
      simp [hr, isNotify]
  · cases hr : env.retinascale
    · exact ⟨[Effect.readFile f,
        Effect.remoteUpload (env.b64encode (fs f)),
        Effect.remoteInfo resp.response], by simp [hr]⟩
    · exact ⟨[Effect.resampleInPlace f, Effect.readFile f,
        Effect.remoteUpload (env.b64encode (env.resample (fs f))),
        Effect.remoteInfo resp.response], by simp [hr]⟩

/-- Witness for `c6_success_pipeline` in the concrete sample environment. -/
theorem c6_success_pipeline_w :
    (handle_screenshot_candidate sampleEnv sampleFs "shot2.png").err
      = none ∧
    uploadAttempts (handle_screenshot_candidate sampleEnv sampleFs
      "shot2.png").effects = 1 ∧
    (handle_screenshot_candidate sampleEnv sampleFs
      "shot2.png").effects.filter isClipboardWrite
      = [Effect.clipboardWrite (InfoResp.mk "https://phab.example/F1"
          "F1").uri] ∧
    (handle_screenshot_candidate sampleEnv sampleFs
      "shot2.png").effects.filter isNotify
      = [Effect.notifyGrowl "Screenshot shared!"
          (notifyBody (InfoResp.mk "https://phab.example/F1" "F1").uri
            (UploadResp.mk "PHID-FILE-1").response
            (InfoResp.mk "https://phab.example/F1" "F1").objectName)
          "shot2.png"] ∧
    (∃ pre, (handle_screenshot_candidate sampleEnv sampleFs
        "shot2.png").effects =
      pre ++ [Effect.clipboardWrite (InfoResp.mk "https://phab.example/F1"
                "F1").uri,
              Effect.notifyGrowl "Screenshot shared!"
                (notifyBody (InfoResp.mk "https://phab.example/F1"
                    "F1").uri
                  (UploadResp.mk "PHID-FILE-1").response
                  (InfoResp.mk "https://phab.example/F1" "F1").objectName)
                "shot2.png"]) ∧
    notify_callback "shot2.png" = Effect.revealInFileViewer "shot2.png" :=
  c6_success_pipeline sampleEnv sampleFs "shot2.png"
    (UploadResp.mk "PHID-FILE-1")
    (InfoResp.mk "https://phab.example/F1" "F1") (by decide) rfl
    (fun _ => rfl) (fun _ => rfl)

/-- C9 counterexample: a non-hidden creation event and a move event that
both name the final path `shot.png` each trigger an independent handler
run — there is no deduplication — so two upload attempts are made for the
same final path. -/
theorem c9_counterexample :
    uploadAttempts (processEvents sampleEnv sampleFs
      [FSEvent.fileCreated "shot.png",
       FSEvent.fileMoved ".shot.png.tmp" "shot.png"]) = 2 := by
  rfl

/-- C9 amended: the handler deduplicates nothing; at most one upload per
screenshot holds only for the pattern the code was written for, where the
creation event carries a hidden temporary name (filtered by the
created-event hidden check) and only the move event names the final path:
such a pair produces at most one upload attempt. -/
theorem c9_hidden_tmp_single_upload (env : Env) (fs : String → List Nat)
    (tmp p : String) (h : startswith_dot (basename tmp) = true) :
    uploadAttempts (processEvents env fs
      [FSEvent.fileCreated tmp, FSEvent.fileMoved tmp p]) ≤ 1 := by
  have h1 : on_created env fs (FSEvent.fileCreated tmp) =
      ⟨[], none, fs⟩ := by
    simp [on_created, h]
  simp only [processEvents, dispatch, on_moved, h1, List.nil_append,
    List.append_nil]
  exact uploadAttempts_handle_le_one env fs p

/-- Witness for `c9_hidden_tmp_single_upload` on the hidden-temp-then-move
pattern. -/
theorem c9_hidden_tmp_single_upload_w :
    uploadAttempts (processEvents sampleEnv sampleFs
      [FSEvent.fileCreated ".shot2.png.tmp",
       FSEvent.fileMoved ".shot2.png.tmp" "shot2 final.png"]) ≤ 1 :=
  c9_hidden_tmp_single_upload sampleEnv sampleFs ".shot2.png.tmp"
    "shot2 final.png" rfl

/-- C10: for an accepted candidate, if the retinascale setting is true the
file is resampled onto itself (the stored bytes become the resampled bytes,
losing the original) before the read, and the upload attempt carries the
encoding of the resampled bytes, the in-place resample being the first
recorded effect; if the setting is false the file system is untouched, no
resample happens, and the upload attempt carries the encoding of the
original bytes.  This holds whether or not the remote calls succeed. -/
theorem c10_retinascale_rescale_before_read (env : Env)
    (fs : String → List Nat) (f : String)
    (hfresh : ¬(env.ctime f - env.now > TIME_THRESHOLD))
    (hshot : env.is_screenshot f = true) :
    (env.retinascale = true →
      (handle_screenshot_candidate env fs f).fs f = env.resample (fs f) ∧
      (handle_screenshot_candidate env fs f).effects.head? =
        some (Effect.resampleInPlace f) ∧
      Effect.remoteUpload (env.b64encode (env.resample (fs f))) ∈
        (handle_screenshot_candidate env fs f).effects) ∧
    (env.retinascale = false →
      (handle_screenshot_candidate env fs f).fs = fs ∧
      Effect.resampleInPlace f ∉
        (handle_screenshot_candidate env fs f).effects ∧
      Effect.remoteUpload (env.b64encode (fs f)) ∈
        (handle_screenshot_candidate env fs f).effects) := by
  have hsh : ¬(!env.is_screenshot f = true) := by simp [hshot]
  constructor
  · intro hr
    cases hc : env.uploadCall (env.b64encode (env.resample (fs f))) with
    | error e =>
        simp [handle_screenshot_candidate, if_neg hfresh, hshot, hsh, hr, hc]
    | ok resp =>
        cases hic : env.infoCall resp.response with
        | error e2 =>
            simp [handle_screenshot_candidate, if_neg hfresh, hshot, hsh, hr,
              hc, hic]
        | ok info =>
            simp [handle_screenshot_candidate, if_neg hfresh, hshot, hsh, hr,
              hc, hic]
  · intro hr
    cases hc : env.uploadCall (env.b64encode (fs f)) with
    | error e =>
        simp [handle_screenshot_candidate, if_neg hfresh, hshot, hsh, hr, hc]
    | ok resp =>
        cases hic : env.infoCall resp.response with
        | error e2 =>
            simp [handle_screenshot_candidate, if_neg hfresh, hshot, hsh, hr,
              hc, hic]
        | ok info =>
            simp [handle_screenshot_candidate, if_neg hfresh, hshot, hsh, hr,
              hc, hic]

/-- Witness for `c10_retinascale_rescale_before_read` in the concrete
sample environment (retinascale off). -/
theorem c10_retinascale_rescale_before_read_w :
    (sampleEnv.retinascale = true →
      (handle_screenshot_candidate sampleEnv sampleFs "shot3.png").fs
        "shot3.png" = sampleEnv.resample (sampleFs "shot3.png") ∧
      (handle_screenshot_candidate sampleEnv sampleFs
        "shot3.png").effects.head? =
        some (Effect.resampleInPlace "shot3.png") ∧
      Effect.remoteUpload (sampleEnv.b64encode
          (sampleEnv.resample (sampleFs "shot3.png"))) ∈
        (handle_screenshot_candidate sampleEnv sampleFs
          "shot3.png").effects) ∧
    (sampleEnv.retinascale = false →
      (handle_screenshot_candidate sampleEnv sampleFs "shot3.png").fs
        = sampleFs ∧
      Effect.resampleInPlace "shot3.png" ∉
        (handle_screenshot_candidate sampleEnv sampleFs
          "shot3.png").effects ∧
      Effect.remoteUpload (sampleEnv.b64encode (sampleFs "shot3.png")) ∈
        (handle_screenshot_candidate sampleEnv sampleFs
          "shot3.png").effects) :=
  c10_retinascale_rescale_before_read sampleEnv sampleFs "shot3.png"
    (by decide) rfl
